import Mathlib

/-!
# miniaudio-cpp: typed adapters over the miniaudio callback tables

A shallow embedding of `src/miniaudio.hpp`:

* `DataSource<T>`: the six static trampolines installed in the data-source
  vtable (`on_read`, `on_seek`, `on_get_data_format`, `on_get_cursor`,
  `on_get_length`, `on_set_looping`) and the typed convenience operations that
  delegate to the engine (`seek_frames` .. `set_loop_point`).
* `AudioNode<T, input_buses, output_buses, flags>`: the constructor.

Conventions of the embedding

* `std::expected<V, ma_result>` is `Except ma_result V`.
* A pointer argument is an `Option`: `none` is the null pointer, `some v` is a
  pointer to a cell that currently holds `v`; every trampoline returns the
  contents of the cells after the call.
* A raw array pointer that the code indexes (`pChannelMap`) is a function from
  offsets to cells, so that a write at any offset is visible.
* The concrete type `T` is a record of its typed callbacks over its own state
  `σ`.  Every callback invocation made by a trampoline, every construction of a
  buffer view and every indexed access of a channel map is appended to a log
  (`List Event`), which plays the part of a spy on the concrete type.
* The engine (`miniaudio.h`) is not part of the repository: an engine primitive
  that a function calls is a parameter of that function, named as in the source.
* An identifier that a function body uses without it being a parameter, a local
  or a member (`frame_count`, `second`, `start`, `end`) is a parameter of the
  embedded function, listed before the object, under its own name.
* `return res;` with `res` an `ma_result`, in a function returning
  `std::expected<V, ma_result>`: when `V` is `std::uint64_t` or `float` the
  statement selects the converting value constructor of `std::expected` and
  builds a success holding `res` converted to `V`; it is embedded so.  When `V`
  is `void` or the format tuple no constructor accepts an `ma_result`; there the
  statement is embedded as the failure carrying `res`.
-/

set_option linter.unusedVariables false
set_option linter.dupNamespace false

/-- The engine's status code type (`ma_result`, a C enumeration). -/
abbrev ma_result := Int

/-- Modelled from the spec: the engine's one canonical success value
(`miniaudio.h` is not under `src/`; the value is miniaudio's). -/
def MA_SUCCESS : ma_result := 0

/-- Modelled from the spec: the engine's invalid-arguments failure value. -/
def MA_INVALID_ARGS : ma_result := -2

/-- Modelled from the spec: the engine's not-implemented failure value. -/
def MA_NOT_IMPLEMENTED : ma_result := -29

/-- Modelled from the spec: the fixed minimum length of a channel map. -/
def MA_MIN_CHANNELS : Nat := 1

/-- Modelled from the spec: the fixed maximum length of a channel map. -/
def MA_MAX_CHANNELS : Nat := 254

/-- Modelled from the spec: the bus-count sentinel meaning
"determined per instance". -/
def MA_NODE_BUS_COUNT_UNKNOWN : Nat := 255

/-- Sample encoding (`ma_format`, a C enumeration). -/
abbrev ma_format := Nat

/-- Channel position (`ma_channel`, an 8-bit code). -/
abbrev ma_channel := Nat

/-- A `float`, carried as its bit pattern: the adapter only copies floats. -/
abbrev float := Nat

/-- Sample memory behind `pFramesOut`, one cell per sample. -/
abbrev SampleMem := List float

/-- Memory behind a raw `ma_channel *`, indexed by offset. -/
abbrev ChannelMem := Nat → ma_channel

/-- Modelled from the spec: `choc::buffer::InterleavedView<float>` (the choc
headers are not under `src/`): a non-owning view over interleaved sample memory
plus a channel count and a frame count. -/
structure InterleavedView where
  data : SampleMem
  numChannels : Nat
  numFrames : Nat
deriving DecidableEq, Repr

/-- Modelled from the spec: `choc::buffer::createInterleavedView`, which
builds the view from raw pointer, channel count and frame count. -/
def createInterleavedView (data : SampleMem) (numChannels numFrames : Nat) :
    InterleavedView :=
  { data := data, numChannels := numChannels, numFrames := numFrames }

/-- What the spy records. -/
inductive Event where
  | on_read (out : InterleavedView) (frames_read : Nat)
  | on_read_noargs
  | on_seek (frame_index : Nat)
  | on_get_data_format (channel_map_cap : Nat)
  | on_get_cursor
  | on_get_length
  | on_set_looping (looping : Bool)
  | createInterleavedView (numChannels numFrames : Nat)
  | read_channelmap (i : Nat)
  | write_pChannelMap (i : Nat)
deriving DecidableEq, Repr

/-- The tuple `{format, channels, sample_rate, channel map}`. -/
abbrev DataFormat := ma_format × Nat × Nat × List ma_channel

/-- The callback set of a concrete type `T` with state `σ` (lines 35-71).
`on_read` is the overload taking a view and `frames_read` by reference: it
returns the sample memory and the value of `frames_read` it leaves behind.
`on_read_noargs` is the overload without arguments. -/
structure Callbacks (σ : Type) where
  on_read : σ → InterleavedView → Nat → Except ma_result Unit × SampleMem × Nat × σ
  on_read_noargs : σ → Except ma_result Unit × σ
  on_seek : σ → Nat → Except ma_result Unit × σ
  on_get_data_format : σ → Nat → Except ma_result DataFormat × σ
  on_get_cursor : σ → Except ma_result Nat × σ
  on_get_length : σ → Except ma_result Nat × σ
  on_set_looping : σ → Bool → Except ma_result Unit × σ

/-- The object behind a non-null handle together with the spy log. -/
structure World (σ : Type) where
  self : σ
  log : List Event

/-- Return value and final cell contents of the `on_read` trampoline. -/
structure ReadOutcome (σ : Type) where
  result : ma_result
  pDataSource : Option σ
  pFramesOut : Option SampleMem
  pFramesRead : Option Nat
  log : List Event

/-- Return value and final state of `on_seek` and `on_set_looping`. -/
structure PlainOutcome (σ : Type) where
  result : ma_result
  pDataSource : Option σ
  log : List Event

/-- Return value and final cell contents of `on_get_data_format`. -/
structure FormatOutcome (σ : Type) where
  result : ma_result
  pDataSource : Option σ
  pFormat : Option ma_format
  pChannels : Option Nat
  pSampleRate : Option Nat
  pChannelMap : Option ChannelMem
  log : List Event

/-- Return value and final cell contents of `on_get_cursor`, `on_get_length`. -/
structure FramesOutcome (σ : Type) where
  result : ma_result
  pDataSource : Option σ
  pOut : Option Nat
  log : List Event

/-- The engine primitive `ma_data_source_get_data_format(ds, &format, &channels,
&sample_rate, pChannelMap, channelMapCap)`: status, the contents of the four
out cells after the call, and the world it leaves. -/
abbrev EngineGetDataFormat (σ : Type) :=
  World σ → ChannelMem → Nat → ma_result × ma_format × Nat × Nat × ChannelMem × World σ

namespace DataSource

/-- Lines 125-141: `get_data_format()`.  The vector `channelmap` is resized to
`MA_MAX_CHANNELS` zero cells, its storage is handed to the engine, and the
vector as the engine left it is returned on success. -/
def get_data_format {σ : Type} (ma_data_source_get_data_format : EngineGetDataFormat σ)
    (this : World σ) : Except ma_result DataFormat × World σ :=
  let channelmap : List ma_channel := List.replicate MA_MAX_CHANNELS 0
  match ma_data_source_get_data_format this (fun i => channelmap.getD i 0) channelmap.length with
  | (res, format, channels, sample_rate, data, this1) =>
    if res = MA_SUCCESS then
      (Except.ok (format, channels, sample_rate, (List.range channelmap.length).map data), this1)
    else
      (Except.error res, this1)

/-- Lines 258-287: the `on_read` trampoline. -/
def on_read {σ : Type} (ma_data_source_get_data_format : EngineGetDataFormat σ)
    (T : Callbacks σ) (log : List Event)
    (pDataSource : Option σ) (pFramesOut : Option SampleMem) (frameCount : Nat)
    (pFramesRead : Option Nat) : ReadOutcome σ :=
  match pDataSource, pFramesRead with
  | some self, some frames_read =>
    match pFramesOut with
    | some buf =>
      match get_data_format ma_data_source_get_data_format ⟨self, log⟩ with
      | (Except.ok (_format, channels, _sample_rate, _channel_map), w) =>
        let view := createInterleavedView buf channels frameCount
        let log1 := w.log ++ [Event.createInterleavedView channels frameCount]
        match T.on_read w.self view frames_read with
        | (Except.ok _, buf1, frames_read1, self1) =>
          ⟨MA_SUCCESS, some self1, some buf1, some frames_read1,
            log1 ++ [Event.on_read view frames_read]⟩
        | (Except.error e, buf1, frames_read1, self1) =>
          ⟨e, some self1, some buf1, some frames_read1,
            log1 ++ [Event.on_read view frames_read]⟩
      | (Except.error e, w) =>
        ⟨e, some w.self, some buf, some frames_read, w.log⟩
    | none =>
      match T.on_read_noargs self with
      | (Except.ok _, self1) =>
        ⟨MA_SUCCESS, some self1, none, some frames_read, log ++ [Event.on_read_noargs]⟩
      | (Except.error e, self1) =>
        ⟨e, some self1, none, some frames_read, log ++ [Event.on_read_noargs]⟩
  | _, _ => ⟨MA_INVALID_ARGS, pDataSource, pFramesOut, pFramesRead, log⟩

/-- Lines 289-299: the `on_seek` trampoline. -/
def on_seek {σ : Type} (T : Callbacks σ) (log : List Event)
    (pDataSource : Option σ) (frameIndex : Nat) : PlainOutcome σ :=
  match pDataSource with
  | none => ⟨MA_INVALID_ARGS, pDataSource, log⟩
  | some self =>
    match T.on_seek self frameIndex with
    | (Except.ok _, self1) => ⟨MA_SUCCESS, some self1, log ++ [Event.on_seek frameIndex]⟩
    | (Except.error e, self1) => ⟨e, some self1, log ++ [Event.on_seek frameIndex]⟩

/-- Lines 321-325: the copy loop
`for (i = 0; i < channelMapCap; i++) { if (i >= channelmap.size()) break;
pChannelMap[i] = channelmap[i]; }`.  The first argument after the vector is
`channelMapCap - i`, the number of iterations the loop condition still
admits. -/
def copy_channel_map (channelmap : List ma_channel) :
    Nat → Nat → ChannelMem → List Event → ChannelMem × List Event
  | 0, _, pChannelMap, log => (pChannelMap, log)
  | remaining + 1, i, pChannelMap, log =>
    if h : i < channelmap.length then
      copy_channel_map channelmap remaining (i + 1)
        (Function.update pChannelMap i (channelmap.get ⟨i, h⟩))
        (log ++ [Event.read_channelmap i, Event.write_pChannelMap i])
    else
      (pChannelMap, log)

/-- The statement `if (p) *p = v;`. -/
def store_if_nonnull {α : Type} (p : Option α) (v : α) : Option α :=
  match p with
  | some _ => some v
  | none => none

/-- Lines 301-331: the `on_get_data_format` trampoline. -/
def on_get_data_format {σ : Type} (T : Callbacks σ) (log : List Event)
    (pDataSource : Option σ) (pFormat : Option ma_format) (pChannels : Option Nat)
    (pSampleRate : Option Nat) (pChannelMap : Option ChannelMem) (channelMapCap : Nat) :
    FormatOutcome σ :=
  if pDataSource.isNone || pFormat.isNone || pChannels.isNone || pSampleRate.isNone ||
      pChannelMap.isNone || decide (channelMapCap > MA_MAX_CHANNELS) ||
      decide (channelMapCap < MA_MIN_CHANNELS) then
    ⟨MA_INVALID_ARGS, pDataSource, pFormat, pChannels, pSampleRate, pChannelMap, log⟩
  else
    match pDataSource with
    | none => ⟨MA_INVALID_ARGS, pDataSource, pFormat, pChannels, pSampleRate, pChannelMap, log⟩
    | some self =>
      match T.on_get_data_format self channelMapCap with
      | (Except.ok format_data, self1) =>
        let log1 := log ++ [Event.on_get_data_format channelMapCap]
        let pFormat1 := store_if_nonnull pFormat format_data.1
        let pChannels1 := store_if_nonnull pChannels format_data.2.1
        let pSampleRate1 := store_if_nonnull pSampleRate format_data.2.2.1
        match pChannelMap with
        | some mem =>
          let channelmap := format_data.2.2.2
          let copied := copy_channel_map channelmap channelMapCap 0 mem log1
          ⟨MA_SUCCESS, some self1, pFormat1, pChannels1, pSampleRate1, some copied.1, copied.2⟩
        | none =>
          ⟨MA_SUCCESS, some self1, pFormat1, pChannels1, pSampleRate1, none, log1⟩
      | (Except.error e, self1) =>
        ⟨e, some self1, pFormat, pChannels, pSampleRate, pChannelMap,
          log ++ [Event.on_get_data_format channelMapCap]⟩

/-- Lines 333-344: the `on_get_cursor` trampoline. -/
def on_get_cursor {σ : Type} (T : Callbacks σ) (log : List Event)
    (pDataSource : Option σ) (pCursor : Option Nat) : FramesOutcome σ :=
  match pDataSource, pCursor with
  | some self, some cursor =>
    match T.on_get_cursor self with
    | (Except.ok v, self1) => ⟨MA_SUCCESS, some self1, some v, log ++ [Event.on_get_cursor]⟩
    | (Except.error e, self1) => ⟨e, some self1, some cursor, log ++ [Event.on_get_cursor]⟩
  | _, _ => ⟨MA_INVALID_ARGS, pDataSource, pCursor, log⟩

/-- Lines 346-357: the `on_get_length` trampoline. -/
def on_get_length {σ : Type} (T : Callbacks σ) (log : List Event)
    (pDataSource : Option σ) (pLength : Option Nat) : FramesOutcome σ :=
  match pDataSource, pLength with
  | some self, some length =>
    match T.on_get_length self with
    | (Except.ok v, self1) => ⟨MA_SUCCESS, some self1, some v, log ++ [Event.on_get_length]⟩
    | (Except.error e, self1) => ⟨e, some self1, some length, log ++ [Event.on_get_length]⟩
  | _, _ => ⟨MA_INVALID_ARGS, pDataSource, pLength, log⟩

/-- Lines 359-366: the `on_set_looping` trampoline; `static_cast<bool>` of an
`ma_bool32` is the test against zero. -/
def on_set_looping {σ : Type} (T : Callbacks σ) (log : List Event)
    (pDataSource : Option σ) (isLooping : Nat) : PlainOutcome σ :=
  match pDataSource with
  | none => ⟨MA_INVALID_ARGS, pDataSource, log⟩
  | some self =>
    match T.on_set_looping self (decide (isLooping ≠ 0)) with
    | (Except.ok _, self1) =>
      ⟨MA_SUCCESS, some self1, log ++ [Event.on_set_looping (decide (isLooping ≠ 0))]⟩
    | (Except.error e, self1) =>
      ⟨e, some self1, log ++ [Event.on_set_looping (decide (isLooping ≠ 0))]⟩

end DataSource

/-- The conversion of an `ma_result` (an unscoped enumeration over `int`) to
`std::uint64_t`: reduction modulo `2 ^ 64`. -/
def to_uint64 (res : ma_result) : Nat := (res % 2 ^ 64).toNat

namespace DataSource

/-- Lines 81-91: `seek_frames(count)`.  The body passes `frame_count`, which is
not the parameter `count`.  Line 89, `return res;`, builds a success holding
`res` converted to `std::uint64_t`. -/
def seek_frames {σ : Type}
    (ma_data_source_seek_pcm_frames : World σ → Nat → ma_result × Nat × World σ)
    (frame_count : Nat) (this : World σ) (count : Nat) : Except ma_result Nat × World σ :=
  match ma_data_source_seek_pcm_frames this frame_count with
  | (res, frames_seeked, this1) =>
    if res = MA_SUCCESS then (Except.ok frames_seeked, this1)
    else (Except.ok (to_uint64 res), this1)

/-- Lines 93-103: `seek_seconds(seconds)`.  Line 101, `return res;`, builds a
success holding `res` converted to `float`; `to_float` is that conversion. -/
def seek_seconds {σ : Type} (to_float : ma_result → float)
    (ma_data_source_seek_seconds : World σ → float → ma_result × float × World σ)
    (this : World σ) (seconds : float) : Except ma_result float × World σ :=
  match ma_data_source_seek_seconds this seconds with
  | (res, seconds_seeked, this1) =>
    if res = MA_SUCCESS then (Except.ok seconds_seeked, this1)
    else (Except.ok (to_float res), this1)

/-- Lines 105-113: `seek_to_frame(frame)`. -/
def seek_to_frame {σ : Type}
    (ma_data_source_seek_to_pcm_frame : World σ → Nat → ma_result × World σ)
    (this : World σ) (frame : Nat) : Except ma_result Unit × World σ :=
  match ma_data_source_seek_to_pcm_frame this frame with
  | (res, this1) =>
    if res = MA_SUCCESS then (Except.ok (), this1) else (Except.error res, this1)

/-- Lines 115-123: `seek_to_seconds(seconds)`.  The body passes `second`, which
is not the parameter `seconds`. -/
def seek_to_seconds {σ : Type}
    (ma_data_source_seek_to_second : World σ → float → ma_result × World σ)
    (second : float) (this : World σ) (seconds : float) : Except ma_result Unit × World σ :=
  match ma_data_source_seek_to_second this second with
  | (res, this1) =>
    if res = MA_SUCCESS then (Except.ok (), this1) else (Except.error res, this1)

/-- Lines 143-152: `get_cursor_frames()`.  Line 150, `return res;`, builds a
success holding `res` converted to `std::uint64_t`. -/
def get_cursor_frames {σ : Type}
    (ma_data_source_get_cursor_in_pcm_frames : World σ → ma_result × Nat × World σ)
    (this : World σ) : Except ma_result Nat × World σ :=
  match ma_data_source_get_cursor_in_pcm_frames this with
  | (res, frames, this1) =>
    if res = MA_SUCCESS then (Except.ok frames, this1)
    else (Except.ok (to_uint64 res), this1)

/-- Lines 154-163: `get_length_frames()`.  Line 161, `return res;`, builds a
success holding `res` converted to `std::uint64_t`. -/
def get_length_frames {σ : Type}
    (ma_data_source_get_length_in_pcm_frames : World σ → ma_result × Nat × World σ)
    (this : World σ) : Except ma_result Nat × World σ :=
  match ma_data_source_get_length_in_pcm_frames this with
  | (res, frames, this1) =>
    if res = MA_SUCCESS then (Except.ok frames, this1)
    else (Except.ok (to_uint64 res), this1)

/-- Lines 165-173: `get_cursor_seconds()`.  Line 171, `return res;`, builds a
success holding `res` converted to `float`; `to_float` is that conversion. -/
def get_cursor_seconds {σ : Type} (to_float : ma_result → float)
    (ma_data_source_get_cursor_in_seconds : World σ → ma_result × float × World σ)
    (this : World σ) : Except ma_result float × World σ :=
  match ma_data_source_get_cursor_in_seconds this with
  | (res, seconds, this1) =>
    if res = MA_SUCCESS then (Except.ok seconds, this1)
    else (Except.ok (to_float res), this1)

/-- Lines 175-183: `get_length_seconds()`.  Line 181, `return res;`, builds a
success holding `res` converted to `float`; `to_float` is that conversion. -/
def get_length_seconds {σ : Type} (to_float : ma_result → float)
    (ma_data_source_get_length_in_seconds : World σ → ma_result × float × World σ)
    (this : World σ) : Except ma_result float × World σ :=
  match ma_data_source_get_length_in_seconds this with
  | (res, seconds, this1) =>
    if res = MA_SUCCESS then (Except.ok seconds, this1)
    else (Except.ok (to_float res), this1)

/-- Lines 185-194: `set_looping(looping)`; `static_cast<ma_bool32>` of a `bool`
is 1 or 0. -/
def set_looping {σ : Type}
    (ma_data_source_set_looping : World σ → Nat → ma_result × World σ)
    (this : World σ) (looping : Bool) : Except ma_result Unit × World σ :=
  match ma_data_source_set_looping this (if looping then 1 else 0) with
  | (res, this1) =>
    if res = MA_SUCCESS then (Except.ok (), this1) else (Except.error res, this1)

/-- Lines 198-208: `set_pcm_range(start, end)`. -/
def set_pcm_range {σ : Type}
    (ma_data_source_set_range_in_pcm_frames : World σ → Nat → Nat → ma_result × World σ)
    (this : World σ) (start end_ : Nat) : Except ma_result Unit × World σ :=
  match ma_data_source_set_range_in_pcm_frames this start end_ with
  | (res, this1) =>
    if res = MA_SUCCESS then (Except.ok (), this1) else (Except.error res, this1)

/-- Lines 210-220: `set_pcm_range(range)`, the tuple overload. -/
def set_pcm_range_tuple {σ : Type}
    (ma_data_source_set_range_in_pcm_frames : World σ → Nat → Nat → ma_result × World σ)
    (this : World σ) (range : Nat × Nat) : Except ma_result Unit × World σ :=
  match range with
  | (start, end_) =>
    match ma_data_source_set_range_in_pcm_frames this start end_ with
    | (res, this1) =>
      if res = MA_SUCCESS then (Except.ok (), this1) else (Except.error res, this1)

/-- Lines 222-226: `get_pcm_range()`; the engine's status is discarded. -/
def get_pcm_range {σ : Type}
    (ma_data_source_get_range_in_pcm_frames : World σ → Nat × Nat × World σ)
    (this : World σ) : (Nat × Nat) × World σ :=
  match ma_data_source_get_range_in_pcm_frames this with
  | (start, end_, this1) => ((start, end_), this1)

/-- Lines 228-238: `set_loop_point(start_frames, end_frames)`.  The body passes
`start` and `end`, which are not the parameters `start_frames` and
`end_frames`. -/
def set_loop_point {σ : Type}
    (ma_data_source_set_loop_point_in_pcm_frames : World σ → Nat → Nat → ma_result × World σ)
    (start end_ : Nat) (this : World σ) (start_frames end_frames : Nat) :
    Except ma_result Unit × World σ :=
  match ma_data_source_set_loop_point_in_pcm_frames this start end_ with
  | (res, this1) =>
    if res = MA_SUCCESS then (Except.ok (), this1) else (Except.error res, this1)

/-- Lines 240-250: `set_loop_point(range)`, the tuple overload. -/
def set_loop_point_tuple {σ : Type}
    (ma_data_source_set_loop_point_in_pcm_frames : World σ → Nat → Nat → ma_result × World σ)
    (this : World σ) (range : Nat × Nat) : Except ma_result Unit × World σ :=
  match range with
  | (start, end_) =>
    match ma_data_source_set_loop_point_in_pcm_frames this start end_ with
    | (res, this1) =>
      if res = MA_SUCCESS then (Except.ok (), this1) else (Except.error res, this1)

/-- Lines 252-256: the loop-point getter, which the source declares under the
name `get_pcm_range` a second time. -/
def get_pcm_range_loop {σ : Type}
    (ma_data_source_get_loop_point_in_pcm_frames : World σ → Nat × Nat × World σ)
    (this : World σ) : (Nat × Nat) × World σ :=
  match ma_data_source_get_loop_point_in_pcm_frames this with
  | (start, end_, this1) => ((start, end_), this1)

end DataSource

/-- Modelled from the spec: the part of `ma_data_source_base` that holds the
two `FrameRange`s, the playable range and the loop region, in PCM frames. -/
structure ma_data_source_base where
  rangeBegInFrames : Nat
  rangeEndInFrames : Nat
  loopBegInFrames : Nat
  loopEndInFrames : Nat
deriving DecidableEq, Repr

/-- Modelled from the spec: the engine primitive that stores the playable range. -/
def ma_data_source_set_range_in_pcm_frames (ds : World ma_data_source_base)
    (rangeBegInFrames rangeEndInFrames : Nat) : ma_result × World ma_data_source_base :=
  (MA_SUCCESS, { ds with self := { ds.self with rangeBegInFrames := rangeBegInFrames,
                                                rangeEndInFrames := rangeEndInFrames } })

/-- Modelled from the spec: the engine primitive that reads the playable range. -/
def ma_data_source_get_range_in_pcm_frames (ds : World ma_data_source_base) :
    Nat × Nat × World ma_data_source_base :=
  (ds.self.rangeBegInFrames, ds.self.rangeEndInFrames, ds)

/-- Modelled from the spec: the engine primitive that stores the loop region. -/
def ma_data_source_set_loop_point_in_pcm_frames (ds : World ma_data_source_base)
    (loopBegInFrames loopEndInFrames : Nat) : ma_result × World ma_data_source_base :=
  (MA_SUCCESS, { ds with self := { ds.self with loopBegInFrames := loopBegInFrames,
                                                loopEndInFrames := loopEndInFrames } })

/-- Modelled from the spec: the engine primitive that reads the loop region. -/
def ma_data_source_get_loop_point_in_pcm_frames (ds : World ma_data_source_base) :
    Nat × Nat × World ma_data_source_base :=
  (ds.self.loopBegInFrames, ds.self.loopEndInFrames, ds)

/-- Lines 374-376: the bus counts and flags of `ma_node_vtable nvtable` (the
two function pointers it also lists are not defined in the source). -/
structure ma_node_vtable where
  inputBusCount : Nat
  outputBusCount : Nat
  flags : Nat
deriving DecidableEq, Repr

/-- The fields of `ma_node_config` the constructor touches. -/
structure ma_node_config where
  vtable : Option ma_node_vtable
  inputBusCount : Nat
  outputBusCount : Nat
deriving DecidableEq, Repr

namespace AudioNode

/-- Lines 374-376: `nvtable` of the instantiation
`AudioNode<T, input_buses, output_buses, flags>`. -/
def nvtable (input_buses output_buses flags : Nat) : ma_node_vtable :=
  { inputBusCount := input_buses, outputBusCount := output_buses, flags := flags }

/-- Lines 379-393: the constructor.  Its value is the configuration handed to
`ma_node_init`, or `none` when an `assert` fails and the program is aborted
before `ma_node_init` is reached.  `config_init` is what the engine's
`ma_node_config_init()` returns. -/
def AudioNode (input_buses output_buses flags : Nat) (config_init : ma_node_config)
    (actual_input_bus_count : Option Nat) (actual_output_bus_count : Option Nat) :
    Option ma_node_config :=
  let config := { config_init with vtable := some (nvtable input_buses output_buses flags) }
  let step1 : Option ma_node_config :=
    if input_buses = MA_NODE_BUS_COUNT_UNKNOWN then
      match actual_input_bus_count with
      | none => none
      | some n => some { config with inputBusCount := n }
    else
      some config
  match step1 with
  | none => none
  | some config1 =>
    if output_buses = MA_NODE_BUS_COUNT_UNKNOWN then
      match actual_output_bus_count with
      | none => none
      | some n => some { config1 with outputBusCount := n }
    else
      some config1

end AudioNode

/-- The accesses of `n` rounds of the copy loop starting at index `i`: round
`j` reads `channelmap[j]` and then writes `pChannelMap[j]`. -/
def channel_map_accesses : Nat → Nat → List Event
  | 0, _ => []
  | n + 1, i => Event.read_channelmap i :: Event.write_pChannelMap i :: channel_map_accesses n (i + 1)

/-- The translation of an engine status `res` into a result `r`, in the words
of the spec: `r` is a success exactly when `res` is `MA_SUCCESS`, it then
carries `payload`, and otherwise it is the failure carrying `res`. -/
def Translates {α : Type} (res : ma_result) (payload : α) (r : Except ma_result α) : Prop :=
  ((∃ v, r = Except.ok v) ↔ res = MA_SUCCESS) ∧
  (res = MA_SUCCESS → r = Except.ok payload) ∧
  (res ≠ MA_SUCCESS → r = Except.error res)

/-! ## Sample instances

Concrete sources and a concrete engine primitive at which the theorems below
are instantiated. -/

/-- A source of 10 mono PCM frames whose state is its cursor. -/
def tenFrames : Callbacks Nat where
  on_read := fun cursor out frames_read =>
    (Except.ok (), out.data, min out.numFrames (10 - cursor),
      cursor + min out.numFrames (10 - cursor))
  on_read_noargs := fun cursor => (Except.ok (), cursor)
  on_seek := fun cursor frame_index =>
    if frame_index ≤ 10 then (Except.ok (), frame_index) else (Except.error MA_INVALID_ARGS, cursor)
  on_get_data_format := fun cursor channel_map_cap => (Except.ok (5, 1, 48000, [2]), cursor)
  on_get_cursor := fun cursor => (Except.ok cursor, cursor)
  on_get_length := fun cursor => (Except.ok 10, cursor)
  on_set_looping := fun cursor looping => (Except.ok (), cursor)

/-- A source every callback of which fails with the status `e`, while
scribbling over whatever it is given. -/
def failing (e : ma_result) : Callbacks Nat where
  on_read := fun s out frames_read => (Except.error e, out.data.map (fun _ => 0), 0, s + 1)
  on_read_noargs := fun s => (Except.error e, s + 1)
  on_seek := fun s frame_index => (Except.error e, s + 1)
  on_get_data_format := fun s channel_map_cap => (Except.error e, s + 1)
  on_get_cursor := fun s => (Except.error e, s + 1)
  on_get_length := fun s => (Except.error e, s + 1)
  on_set_looping := fun s looping => (Except.error e, s + 1)

/-- A stereo source whose state counts its format queries: the first fails
with `MA_NOT_IMPLEMENTED`, the second with `-1`, the later ones succeed with
a channel map of three entries. -/
def flaky : Callbacks Nat where
  on_read := fun s out frames_read => (Except.ok (), out.data, out.numFrames, s)
  on_read_noargs := fun s => (Except.ok (), s)
  on_seek := fun s frame_index => (Except.ok (), s)
  on_get_data_format := fun s channel_map_cap =>
    if s = 0 then (Except.error MA_NOT_IMPLEMENTED, 1)
    else if s = 1 then (Except.error (-1), 2)
    else (Except.ok (5, 2, 44100, [7, 8, 9]), s + 1)
  on_get_cursor := fun s => (Except.ok 0, s)
  on_get_length := fun s => (Except.error MA_NOT_IMPLEMENTED, s)
  on_set_looping := fun s looping => (Except.error MA_NOT_IMPLEMENTED, s)

/-- An engine format query that dispatches through the vtable entry
`on_get_data_format` of the source, with zeroed out cells. -/
def vtable_get_data_format {σ : Type} (T : Callbacks σ) : EngineGetDataFormat σ :=
  fun ds pChannelMap channelMapCap =>
    let r := DataSource.on_get_data_format T ds.log (some ds.self) (some 0) (some 0) (some 0)
      (some pChannelMap) channelMapCap
    (r.result, r.pFormat.getD 0, r.pChannels.getD 0, r.pSampleRate.getD 0,
      r.pChannelMap.getD pChannelMap, ⟨r.pDataSource.getD ds.self, r.log⟩)

/-! ## Theorems -/

/-- C2. Invalid-argument fast path: a trampoline called with a null engine
handle, with a null required out-parameter, or (format query) with a
channel-map capacity outside `[MA_MIN_CHANNELS, MA_MAX_CHANNELS]`, returns
`MA_INVALID_ARGS`, leaves the log of callback invocations as it was and leaves
every cell as it was. -/
theorem invalid_args_fast_path {σ : Type} (E : EngineGetDataFormat σ) (T : Callbacks σ)
    (log : List Event) :
    (∀ pDataSource pFramesOut frameCount pFramesRead,
        pDataSource = none ∨ pFramesRead = none →
        DataSource.on_read E T log pDataSource pFramesOut frameCount pFramesRead
          = ⟨MA_INVALID_ARGS, pDataSource, pFramesOut, pFramesRead, log⟩) ∧
    (∀ frameIndex, DataSource.on_seek T log none frameIndex = ⟨MA_INVALID_ARGS, none, log⟩) ∧
    (∀ pDataSource pFormat pChannels pSampleRate pChannelMap channelMapCap,
        pDataSource = none ∨ pFormat = none ∨ pChannels = none ∨ pSampleRate = none ∨
          pChannelMap = none ∨ channelMapCap < MA_MIN_CHANNELS ∨
          channelMapCap > MA_MAX_CHANNELS →
        DataSource.on_get_data_format T log pDataSource pFormat pChannels pSampleRate
            pChannelMap channelMapCap
          = ⟨MA_INVALID_ARGS, pDataSource, pFormat, pChannels, pSampleRate, pChannelMap, log⟩) ∧
    (∀ pDataSource pCursor, pDataSource = none ∨ pCursor = none →
        DataSource.on_get_cursor T log pDataSource pCursor
          = ⟨MA_INVALID_ARGS, pDataSource, pCursor, log⟩) ∧
    (∀ pDataSource pLength, pDataSource = none ∨ pLength = none →
        DataSource.on_get_length T log pDataSource pLength
          = ⟨MA_INVALID_ARGS, pDataSource, pLength, log⟩) ∧
    (∀ isLooping, DataSource.on_set_looping T log none isLooping
          = ⟨MA_INVALID_ARGS, none, log⟩) := by
  refine ⟨?_, ?_, ?_, ?_, ?_, ?_⟩
  · intro pDataSource pFramesOut frameCount pFramesRead h
    rcases h with h | h <;> subst h
    · rfl
    · cases pDataSource <;> rfl
  · intro frameIndex
    rfl
  · intro pDataSource pFormat pChannels pSampleRate pChannelMap channelMapCap h
    have hc : (pDataSource.isNone || pFormat.isNone || pChannels.isNone || pSampleRate.isNone ||
        pChannelMap.isNone || decide (channelMapCap > MA_MAX_CHANNELS) ||
        decide (channelMapCap < MA_MIN_CHANNELS)) = true := by
      rcases h with h | h | h | h | h | h | h <;> simp [h]
    unfold DataSource.on_get_data_format
    rw [if_pos hc]
  · intro pDataSource pCursor h
    rcases h with h | h <;> subst h
    · rfl
    · cases pDataSource <;> rfl
  · intro pDataSource pLength h
    rcases h with h | h <;> subst h
    · rfl
    · cases pDataSource <;> rfl
  · intro isLooping
    rfl

/-- Witness of C2 at the ten-frame source: a null handle on the read path, a
capacity of 300 on the format path and a null cursor cell. -/
theorem invalid_args_fast_path_witness :
    DataSource.on_read (vtable_get_data_format tenFrames) tenFrames [] none (some [1, 2]) 2 (some 7)
        = ⟨MA_INVALID_ARGS, none, some [1, 2], some 7, []⟩ ∧
    DataSource.on_get_data_format tenFrames [] (some 0) (some 1) (some 2) (some 3)
          (some (fun _ => 4)) 300
        = ⟨MA_INVALID_ARGS, some 0, some 1, some 2, some 3, some (fun _ => 4), []⟩ ∧
    DataSource.on_get_cursor tenFrames [] (some 0) none = ⟨MA_INVALID_ARGS, some 0, none, []⟩ :=
  ⟨(invalid_args_fast_path (vtable_get_data_format tenFrames) tenFrames []).1
      none (some [1, 2]) 2 (some 7) (Or.inl rfl),
   (invalid_args_fast_path (vtable_get_data_format tenFrames) tenFrames []).2.2.1
      (some 0) (some 1) (some 2) (some 3) (some (fun _ => 4)) 300
      (Or.inr (Or.inr (Or.inr (Or.inr (Or.inr (Or.inr (by decide))))))),
   (invalid_args_fast_path (vtable_get_data_format tenFrames) tenFrames []).2.2.2.1
      (some 0) none (Or.inr rfl)⟩

/-- C1. Status fidelity: with arguments that pass validation, each of the six
trampolines returns exactly the status `e` carried by a failing callback, and
`MA_SUCCESS` when the callback succeeds.  For a read with a destination buffer
the callback is the buffered `on_read`, reached once the format query has
succeeded. -/
theorem status_fidelity {σ : Type} (E : EngineGetDataFormat σ) (T : Callbacks σ)
    (log : List Event) (self : σ) :
    (∀ frameCount frames_read,
      (∀ e s, T.on_read_noargs self = (Except.error e, s) →
        (DataSource.on_read E T log (some self) none frameCount (some frames_read)).result = e) ∧
      (∀ u s, T.on_read_noargs self = (Except.ok u, s) →
        (DataSource.on_read E T log (some self) none frameCount (some frames_read)).result
          = MA_SUCCESS)) ∧
    (∀ buf frameCount frames_read fmt w,
      DataSource.get_data_format E ⟨self, log⟩ = (Except.ok fmt, w) →
      (∀ e b n s,
        T.on_read w.self (createInterleavedView buf fmt.2.1 frameCount) frames_read
          = (Except.error e, b, n, s) →
        (DataSource.on_read E T log (some self) (some buf) frameCount (some frames_read)).result
          = e) ∧
      (∀ u b n s,
        T.on_read w.self (createInterleavedView buf fmt.2.1 frameCount) frames_read
          = (Except.ok u, b, n, s) →
        (DataSource.on_read E T log (some self) (some buf) frameCount (some frames_read)).result
          = MA_SUCCESS)) ∧
    (∀ frameIndex,
      (∀ e s, T.on_seek self frameIndex = (Except.error e, s) →
        (DataSource.on_seek T log (some self) frameIndex).result = e) ∧
      (∀ u s, T.on_seek self frameIndex = (Except.ok u, s) →
        (DataSource.on_seek T log (some self) frameIndex).result = MA_SUCCESS)) ∧
    (∀ format channels sampleRate channelMap channelMapCap,
      MA_MIN_CHANNELS ≤ channelMapCap → channelMapCap ≤ MA_MAX_CHANNELS →
      (∀ e s, T.on_get_data_format self channelMapCap = (Except.error e, s) →
        (DataSource.on_get_data_format T log (some self) (some format) (some channels)
          (some sampleRate) (some channelMap) channelMapCap).result = e) ∧
      (∀ v s, T.on_get_data_format self channelMapCap = (Except.ok v, s) →
        (DataSource.on_get_data_format T log (some self) (some format) (some channels)
          (some sampleRate) (some channelMap) channelMapCap).result = MA_SUCCESS)) ∧
    (∀ cursor,
      (∀ e s, T.on_get_cursor self = (Except.error e, s) →
        (DataSource.on_get_cursor T log (some self) (some cursor)).result = e) ∧
      (∀ v s, T.on_get_cursor self = (Except.ok v, s) →
        (DataSource.on_get_cursor T log (some self) (some cursor)).result = MA_SUCCESS)) ∧
    (∀ length,
      (∀ e s, T.on_get_length self = (Except.error e, s) →
        (DataSource.on_get_length T log (some self) (some length)).result = e) ∧
      (∀ v s, T.on_get_length self = (Except.ok v, s) →
        (DataSource.on_get_length T log (some self) (some length)).result = MA_SUCCESS)) ∧
    (∀ isLooping,
      (∀ e s, T.on_set_looping self (decide (isLooping ≠ 0)) = (Except.error e, s) →
        (DataSource.on_set_looping T log (some self) isLooping).result = e) ∧
      (∀ u s, T.on_set_looping self (decide (isLooping ≠ 0)) = (Except.ok u, s) →
        (DataSource.on_set_looping T log (some self) isLooping).result = MA_SUCCESS)) := by
  refine ⟨?_, ?_, ?_, ?_, ?_, ?_, ?_⟩
  · intro frameCount frames_read
    constructor <;> intro _ s h <;> simp [DataSource.on_read, h]
  · intro buf frameCount frames_read fmt w hq
    obtain ⟨format, channels, sample_rate, channel_map⟩ := fmt
    constructor <;> intro _ b n s h <;> simp [DataSource.on_read, hq, h]
  · intro frameIndex
    constructor <;> intro _ s h <;> simp [DataSource.on_seek, h]
  · intro format channels sampleRate channelMap channelMapCap hlo hhi
    have hc : ¬ (channelMapCap > MA_MAX_CHANNELS ∨ channelMapCap < MA_MIN_CHANNELS) := by omega
    constructor <;> intro _ s h <;> simp [DataSource.on_get_data_format, h, hc]
  · intro cursor
    constructor <;> intro _ s h <;> simp [DataSource.on_get_cursor, h]
  · intro length
    constructor <;> intro _ s h <;> simp [DataSource.on_get_length, h]
  · intro isLooping
    constructor <;> intro _ s h <;> (unfold DataSource.on_set_looping; simp only [h])

set_option maxRecDepth 100000 in
/-- Witness of C1: a seek that fails with `-7`, a seek that succeeds, and a
buffered read of the ten-frame source driven through the vtable. -/
theorem status_fidelity_witness :
    (DataSource.on_seek (failing (-7)) [] (some 0) 3).result = -7 ∧
    (DataSource.on_seek tenFrames [] (some 0) 3).result = MA_SUCCESS ∧
    (DataSource.on_read (vtable_get_data_format tenFrames) tenFrames [] (some 0)
        (some [0, 0, 0]) 3 (some 0)).result = MA_SUCCESS :=
  ⟨((status_fidelity (vtable_get_data_format tenFrames) (failing (-7)) [] 0).2.2.1 3).1
      (-7) 1 rfl,
   ((status_fidelity (vtable_get_data_format tenFrames) tenFrames [] 0).2.2.1 3).2
      () 3 rfl,
   ((status_fidelity (vtable_get_data_format tenFrames) tenFrames [] 0).2.1
      [0, 0, 0] 3 0 (5, 1, 48000, 2 :: List.replicate 253 0)
      ⟨0, [Event.on_get_data_format 254, Event.read_channelmap 0, Event.write_pChannelMap 0]⟩
      rfl).2 () [0, 0, 0] 3 3 rfl⟩

/-- The memory the copy loop leaves: the cells `i .. min (i + n) L - 1` hold
the entries of the vector, every other cell is as before. -/
theorem copy_channel_map_mem (channelmap : List ma_channel) :
    ∀ (n i : Nat) (p : ChannelMem) (log : List Event) (j : Nat),
      (DataSource.copy_channel_map channelmap n i p log).1 j
        = if i ≤ j ∧ j < i + n ∧ j < channelmap.length then channelmap.getD j 0 else p j := by
  intro n
  induction n with
  | zero =>
    intro i p log j
    have hf : ¬ (i ≤ j ∧ j < i + 0 ∧ j < channelmap.length) := by omega
    rw [if_neg hf]
    rfl
  | succ n ih =>
    intro i p log j
    unfold DataSource.copy_channel_map
    by_cases h : i < channelmap.length
    · rw [dif_pos h, ih]
      by_cases hji : j = i
      · subst hji
        have h1 : ¬ (j + 1 ≤ j ∧ j < j + 1 + n ∧ j < channelmap.length) := by omega
        have h2 : j ≤ j ∧ j < j + (n + 1) ∧ j < channelmap.length := by omega
        rw [if_neg h1, if_pos h2, Function.update_same, List.getD_eq_getElem _ _ h]
        rfl
      · rw [Function.update_noteq hji]
        by_cases hc : i + 1 ≤ j ∧ j < i + 1 + n ∧ j < channelmap.length
        · have hc2 : i ≤ j ∧ j < i + (n + 1) ∧ j < channelmap.length := by omega
          rw [if_pos hc, if_pos hc2]
        · have hc2 : ¬ (i ≤ j ∧ j < i + (n + 1) ∧ j < channelmap.length) := by omega
          rw [if_neg hc, if_neg hc2]
    · rw [dif_neg h]
      have hc2 : ¬ (i ≤ j ∧ j < i + (n + 1) ∧ j < channelmap.length) := by omega
      rw [if_neg hc2]

/-- The log the copy loop leaves: one read and one write per copied entry. -/
theorem copy_channel_map_log (channelmap : List ma_channel) :
    ∀ (n i : Nat) (p : ChannelMem) (log : List Event),
      (DataSource.copy_channel_map channelmap n i p log).2
        = log ++ channel_map_accesses (min n (channelmap.length - i)) i := by
  intro n
  induction n with
  | zero =>
    intro i p log
    simp [DataSource.copy_channel_map, channel_map_accesses]
  | succ n ih =>
    intro i p log
    unfold DataSource.copy_channel_map
    by_cases h : i < channelmap.length
    · rw [dif_pos h, ih]
      have hm : min (n + 1) (channelmap.length - i)
          = min n (channelmap.length - (i + 1)) + 1 := by omega
      rw [hm]
      simp [channel_map_accesses]
    · rw [dif_neg h]
      have hm : min (n + 1) (channelmap.length - i) = 0 := by omega
      rw [hm]
      simp [channel_map_accesses]

/-- Every index read in `n` rounds from `i` lies in `[i, i + n)`. -/
theorem read_mem_channel_map_accesses :
    ∀ (n i j : Nat), Event.read_channelmap j ∈ channel_map_accesses n i → i ≤ j ∧ j < i + n := by
  intro n
  induction n with
  | zero => intro i j h; simp [channel_map_accesses] at h
  | succ n ih =>
    intro i j h
    simp only [channel_map_accesses, List.mem_cons] at h
    rcases h with h | h | h
    · injection h with h; omega
    · cases h
    · have := ih (i + 1) j h; omega

/-- Every index written in `n` rounds from `i` lies in `[i, i + n)`. -/
theorem write_mem_channel_map_accesses :
    ∀ (n i j : Nat), Event.write_pChannelMap j ∈ channel_map_accesses n i → i ≤ j ∧ j < i + n := by
  intro n
  induction n with
  | zero => intro i j h; simp [channel_map_accesses] at h
  | succ n ih =>
    intro i j h
    simp only [channel_map_accesses, List.mem_cons] at h
    rcases h with h | h | h
    · cases h
    · injection h with h; omega
    · have := ih (i + 1) j h; omega

/-- The format trampoline on valid arguments when the callback succeeds. -/
theorem on_get_data_format_ok {σ : Type} (T : Callbacks σ) (log : List Event) (self s : σ)
    (format channels sampleRate : Nat) (channelMap : ChannelMem) (channelMapCap : Nat)
    (format_data : DataFormat)
    (hlo : MA_MIN_CHANNELS ≤ channelMapCap) (hhi : channelMapCap ≤ MA_MAX_CHANNELS)
    (hcb : T.on_get_data_format self channelMapCap = (Except.ok format_data, s)) :
    DataSource.on_get_data_format T log (some self) (some format) (some channels)
        (some sampleRate) (some channelMap) channelMapCap
      = ⟨MA_SUCCESS, some s, some format_data.1, some format_data.2.1, some format_data.2.2.1,
          some (DataSource.copy_channel_map format_data.2.2.2 channelMapCap 0 channelMap
            (log ++ [Event.on_get_data_format channelMapCap])).1,
          (DataSource.copy_channel_map format_data.2.2.2 channelMapCap 0 channelMap
            (log ++ [Event.on_get_data_format channelMapCap])).2⟩ := by
  have hc : ¬ (channelMapCap > MA_MAX_CHANNELS ∨ channelMapCap < MA_MIN_CHANNELS) := by omega
  simp [DataSource.on_get_data_format, hcb, hc, DataSource.store_if_nonnull]

/-- The format trampoline on valid arguments when the callback fails. -/
theorem on_get_data_format_error {σ : Type} (T : Callbacks σ) (log : List Event) (self s : σ)
    (format channels sampleRate : Nat) (channelMap : ChannelMem) (channelMapCap : Nat)
    (e : ma_result)
    (hlo : MA_MIN_CHANNELS ≤ channelMapCap) (hhi : channelMapCap ≤ MA_MAX_CHANNELS)
    (hcb : T.on_get_data_format self channelMapCap = (Except.error e, s)) :
    DataSource.on_get_data_format T log (some self) (some format) (some channels)
        (some sampleRate) (some channelMap) channelMapCap
      = ⟨e, some s, some format, some channels, some sampleRate, some channelMap,
          log ++ [Event.on_get_data_format channelMapCap]⟩ := by
  have hc : ¬ (channelMapCap > MA_MAX_CHANNELS ∨ channelMapCap < MA_MIN_CHANNELS) := by omega
  simp [DataSource.on_get_data_format, hcb, hc]

/-- The cells `0 .. min C L - 1` after the copy loop are the first `min C L`
entries of the vector, in order. -/
theorem copy_channel_map_take (channelmap : List ma_channel) (C : Nat) (p : ChannelMem)
    (log : List Event) :
    (List.range (min C channelmap.length)).map (DataSource.copy_channel_map channelmap C 0 p log).1
      = channelmap.take (min C channelmap.length) := by
  apply List.ext_getElem
  · simp
  · intro k h1 h2
    have hk : k < min C channelmap.length := by simpa using h1
    have hk2 : 0 ≤ k ∧ k < 0 + C ∧ k < channelmap.length := by omega
    have hk3 : k < channelmap.length := by omega
    simp only [List.getElem_map, List.getElem_range, List.getElem_take]
    rw [copy_channel_map_mem, if_pos hk2, List.getD_eq_getElem _ _ hk3]

/-- C3. Capacity clamp: for a capacity `C` and a reported channel map of length
`L`, both within `[MA_MIN_CHANNELS, MA_MAX_CHANNELS]`, a successful format
query leaves in the first `min C L` cells of the caller's array the first
`min C L` entries of the reported map, in order, leaves every cell from
`min C L` on as it was, and its accesses are exactly one read of the map and one
write of the array at each index `0 .. min C L - 1`: no read at an index `≥ L`,
no write at an index `≥ C`. -/
theorem capacity_clamp {σ : Type} (T : Callbacks σ) (log : List Event) (self s : σ)
    (format channels sampleRate : Nat) (channelMap : ChannelMem) (C L : Nat)
    (fmt ch sr : Nat) (reported : List ma_channel)
    (hC1 : MA_MIN_CHANNELS ≤ C) (hC2 : C ≤ MA_MAX_CHANNELS)
    (hL1 : MA_MIN_CHANNELS ≤ L) (hL2 : L ≤ MA_MAX_CHANNELS)
    (hlen : reported.length = L)
    (hcb : T.on_get_data_format self C = (Except.ok (fmt, ch, sr, reported), s)) :
    (DataSource.on_get_data_format T log (some self) (some format) (some channels)
        (some sampleRate) (some channelMap) C).result = MA_SUCCESS ∧
    ∃ mem : ChannelMem,
      (DataSource.on_get_data_format T log (some self) (some format) (some channels)
        (some sampleRate) (some channelMap) C).pChannelMap = some mem ∧
      (List.range (min C L)).map mem = reported.take (min C L) ∧
      (∀ i, min C L ≤ i → mem i = channelMap i) ∧
      (DataSource.on_get_data_format T log (some self) (some format) (some channels)
        (some sampleRate) (some channelMap) C).log
          = log ++ Event.on_get_data_format C :: channel_map_accesses (min C L) 0 ∧
      (∀ j, Event.read_channelmap j ∈ channel_map_accesses (min C L) 0 → j < L ∧ j < C) ∧
      (∀ j, Event.write_pChannelMap j ∈ channel_map_accesses (min C L) 0 → j < C ∧ j < L) := by
  subst hlen
  rw [on_get_data_format_ok T log self s format channels sampleRate channelMap C _ hC1 hC2 hcb]
  refine ⟨rfl, _, rfl, ?_, ?_, ?_, ?_, ?_⟩
  · exact copy_channel_map_take reported C channelMap _
  · intro i hi
    have hf : ¬ (0 ≤ i ∧ i < 0 + C ∧ i < reported.length) := by omega
    show (DataSource.copy_channel_map reported C 0 channelMap _).1 i = channelMap i
    rw [copy_channel_map_mem, if_neg hf]
  · show (DataSource.copy_channel_map reported C 0 channelMap _).2 = _
    rw [copy_channel_map_log]
    simp
  · intro j hj
    have := read_mem_channel_map_accesses _ _ _ hj
    omega
  · intro j hj
    have := write_mem_channel_map_accesses _ _ _ hj
    omega

/-- Witness of C3: capacity 2 against a reported map `[7, 8, 9]` of length 3,
over an array whose cells all hold 99. -/
theorem capacity_clamp_witness :
    (DataSource.on_get_data_format flaky [] (some 2) (some 0) (some 0) (some 0)
        (some (fun _ => 99)) 2).result = MA_SUCCESS ∧
    (DataSource.on_get_data_format flaky [] (some 2) (some 0) (some 0) (some 0)
        (some (fun _ => 99)) 2).log
      = [Event.on_get_data_format 2, Event.read_channelmap 0, Event.write_pChannelMap 0,
          Event.read_channelmap 1, Event.write_pChannelMap 1] ∧
    (DataSource.on_get_data_format flaky [] (some 2) (some 0) (some 0) (some 0)
        (some (fun _ => 99)) 2).pChannelMap.map (fun mem => [mem 0, mem 1, mem 2, mem 3])
      = some [7, 8, 99, 99] :=
  have h := capacity_clamp flaky [] 2 3 0 0 0 (fun _ => 99) 2 3 5 2 44100 [7, 8, 9]
    (by decide) (by decide) (by decide) (by decide) rfl rfl
  ⟨h.1, h.2.choose_spec.2.2.2.1, rfl⟩

/-- C10. Failure leaves out-parameters untouched: on valid arguments the
cursor, length and format trampolines write no out cell when the callback
fails (and the format trampoline then touches no channel-map entry), and when
the callback succeeds the cells hold exactly the values it returned, the
channel-map array holding the reported entries in its first
`min channelMapCap L` cells. -/
theorem failure_leaves_outputs {σ : Type} (T : Callbacks σ) (log : List Event) (self : σ) :
    (∀ cursor,
      (∀ e s, T.on_get_cursor self = (Except.error e, s) →
        (DataSource.on_get_cursor T log (some self) (some cursor)).pOut = some cursor) ∧
      (∀ v s, T.on_get_cursor self = (Except.ok v, s) →
        (DataSource.on_get_cursor T log (some self) (some cursor)).pOut = some v)) ∧
    (∀ length,
      (∀ e s, T.on_get_length self = (Except.error e, s) →
        (DataSource.on_get_length T log (some self) (some length)).pOut = some length) ∧
      (∀ v s, T.on_get_length self = (Except.ok v, s) →
        (DataSource.on_get_length T log (some self) (some length)).pOut = some v)) ∧
    (∀ format channels sampleRate channelMap channelMapCap,
      MA_MIN_CHANNELS ≤ channelMapCap → channelMapCap ≤ MA_MAX_CHANNELS →
      (∀ e s, T.on_get_data_format self channelMapCap = (Except.error e, s) →
        DataSource.on_get_data_format T log (some self) (some format) (some channels)
            (some sampleRate) (some channelMap) channelMapCap
          = ⟨e, some s, some format, some channels, some sampleRate, some channelMap,
              log ++ [Event.on_get_data_format channelMapCap]⟩) ∧
      (∀ fmt ch sr reported s,
        T.on_get_data_format self channelMapCap = (Except.ok (fmt, ch, sr, reported), s) →
        (DataSource.on_get_data_format T log (some self) (some format) (some channels)
            (some sampleRate) (some channelMap) channelMapCap).pFormat = some fmt ∧
        (DataSource.on_get_data_format T log (some self) (some format) (some channels)
            (some sampleRate) (some channelMap) channelMapCap).pChannels = some ch ∧
        (DataSource.on_get_data_format T log (some self) (some format) (some channels)
            (some sampleRate) (some channelMap) channelMapCap).pSampleRate = some sr ∧
        ∃ mem : ChannelMem,
          (DataSource.on_get_data_format T log (some self) (some format) (some channels)
            (some sampleRate) (some channelMap) channelMapCap).pChannelMap = some mem ∧
          (List.range (min channelMapCap reported.length)).map mem
            = reported.take (min channelMapCap reported.length) ∧
          (∀ i, min channelMapCap reported.length ≤ i → mem i = channelMap i))) := by
  refine ⟨?_, ?_, ?_⟩
  · intro cursor
    constructor <;> intro _ s h <;> simp [DataSource.on_get_cursor, h]
  · intro length
    constructor <;> intro _ s h <;> simp [DataSource.on_get_length, h]
  · intro format channels sampleRate channelMap channelMapCap hlo hhi
    constructor
    · intro e s h
      exact on_get_data_format_error T log self s format channels sampleRate channelMap
        channelMapCap e hlo hhi h
    · intro fmt ch sr reported s h
      rw [on_get_data_format_ok T log self s format channels sampleRate channelMap
        channelMapCap _ hlo hhi h]
      refine ⟨rfl, rfl, rfl, _, rfl, ?_, ?_⟩
      · exact copy_channel_map_take reported channelMapCap channelMap _
      · intro i hi
        have hf : ¬ (0 ≤ i ∧ i < 0 + channelMapCap ∧ i < reported.length) := by omega
        show (DataSource.copy_channel_map reported channelMapCap 0 channelMap _).1 i
          = channelMap i
        rw [copy_channel_map_mem, if_neg hf]

/-- Witness of C10: a failing cursor query leaves the cell at 41, a successful
one stores the cursor 6, and a failing format query leaves all four cells. -/
theorem failure_leaves_outputs_witness :
    (DataSource.on_get_cursor (failing (-7)) [] (some 0) (some 41)).pOut = some 41 ∧
    (DataSource.on_get_cursor tenFrames [] (some 6) (some 41)).pOut = some 6 ∧
    DataSource.on_get_data_format (failing (-7)) [] (some 0) (some 1) (some 2) (some 3)
        (some (fun _ => 4)) 2
      = ⟨-7, some 1, some 1, some 2, some 3, some (fun _ => 4), [Event.on_get_data_format 2]⟩ :=
  ⟨((failure_leaves_outputs (failing (-7)) [] 0).1 41).1 (-7) 1 rfl,
   ((failure_leaves_outputs tenFrames [] 6).1 41).2 6 6 rfl,
   ((failure_leaves_outputs (failing (-7)) [] 0).2.2 1 2 3 (fun _ => 4) 2
      (by decide) (by decide)).1 (-7) 1 rfl⟩

/-- C5. No-buffer read: with a non-null handle and frames-read cell and a null
destination buffer, the read trampoline makes exactly one callback invocation,
the `on_read()` overload without arguments, whatever the engine's format query
is (it is not consulted), leaves the frames-read cell and the null buffer as
they were, and returns the status of that `on_read()` call. -/
theorem no_buffer_read {σ : Type} (E : EngineGetDataFormat σ) (T : Callbacks σ)
    (log : List Event) (self : σ) (frameCount frames_read : Nat) :
    (DataSource.on_read E T log (some self) none frameCount (some frames_read)).log
        = log ++ [Event.on_read_noargs] ∧
    (DataSource.on_read E T log (some self) none frameCount (some frames_read)).pFramesOut
        = none ∧
    (DataSource.on_read E T log (some self) none frameCount (some frames_read)).pFramesRead
        = some frames_read ∧
    (DataSource.on_read E T log (some self) none frameCount (some frames_read)).pDataSource
        = some (T.on_read_noargs self).2 ∧
    (DataSource.on_read E T log (some self) none frameCount (some frames_read)).result
        = (match (T.on_read_noargs self).1 with
            | Except.ok _ => MA_SUCCESS
            | Except.error e => e) ∧
    (∀ E2 : EngineGetDataFormat σ,
      DataSource.on_read E2 T log (some self) none frameCount (some frames_read)
        = DataSource.on_read E T log (some self) none frameCount (some frames_read)) := by
  unfold DataSource.on_read
  rcases hcb : T.on_read_noargs self with ⟨r, s⟩
  cases r <;> simp [hcb]

/-- C4. Format failure short-circuits a buffered read: with a non-null handle,
frames-read cell and destination buffer, when the format query fails with
status `e` the read trampoline returns exactly `e`, and the world is the one
the format query left: nothing is appended to the log (neither `on_read`
overload is invoked, no buffer view is constructed), the destination buffer and
the frames-read cell are as they were.  The same holds for the read that
follows when its format query fails as well. -/
theorem format_failure_short_circuits {σ : Type} (E : EngineGetDataFormat σ) (T : Callbacks σ)
    (log : List Event) (self : σ) (buf : SampleMem) (frameCount frames_read : Nat)
    (e : ma_result) (w : World σ)
    (hq : DataSource.get_data_format E ⟨self, log⟩ = (Except.error e, w)) :
    DataSource.on_read E T log (some self) (some buf) frameCount (some frames_read)
      = ⟨e, some w.self, some buf, some frames_read, w.log⟩ ∧
    (∀ e2 w2 frameCount2,
      DataSource.get_data_format E ⟨w.self, w.log⟩ = (Except.error e2, w2) →
      DataSource.on_read E T w.log (some w.self) (some buf) frameCount2 (some frames_read)
        = ⟨e2, some w2.self, some buf, some frames_read, w2.log⟩) := by
  constructor
  · simp [DataSource.on_read, hq]
  · intro e2 w2 frameCount2 hq2
    simp [DataSource.on_read, hq2]

set_option maxRecDepth 100000 in
/-- Witness of C4: two buffered reads of the source whose first two format
queries fail with `MA_NOT_IMPLEMENTED` and `-1`, driven through the vtable:
the only callback invoked by either read is the format query. -/
theorem format_failure_short_circuits_witness :
    DataSource.on_read (vtable_get_data_format flaky) flaky [] (some 0) (some [5, 5]) 1 (some 9)
      = ⟨MA_NOT_IMPLEMENTED, some 1, some [5, 5], some 9, [Event.on_get_data_format 254]⟩ ∧
    DataSource.on_read (vtable_get_data_format flaky) flaky [Event.on_get_data_format 254]
        (some 1) (some [5, 5]) 1 (some 9)
      = ⟨-1, some 2, some [5, 5], some 9,
          [Event.on_get_data_format 254, Event.on_get_data_format 254]⟩ :=
  have h := format_failure_short_circuits (vtable_get_data_format flaky) flaky [] 0 [5, 5] 1 9
    MA_NOT_IMPLEMENTED ⟨1, [Event.on_get_data_format 254]⟩ rfl
  ⟨h.1, h.2 (-1) ⟨2, [Event.on_get_data_format 254, Event.on_get_data_format 254]⟩ 1 rfl⟩

/-- C9. Buffered read dispatch: with a non-null handle, frames-read cell and
destination buffer, when the format query succeeds reporting `c` channels the
read trampoline appends to the log the format query left exactly the
construction of one view and one invocation of the buffered `on_read` (and no
invocation of `on_read()`); that view is over the engine's buffer with `c`
channels and `frameCount` frames; the callback receives the engine's
frames-read cell, and the cell, the buffer and the object are afterwards what
the callback left. -/
theorem buffered_read_dispatch {σ : Type} (E : EngineGetDataFormat σ) (T : Callbacks σ)
    (log : List Event) (self : σ) (buf : SampleMem) (frameCount frames_read : Nat)
    (format c sample_rate : Nat) (channel_map : List ma_channel) (w : World σ)
    (hq : DataSource.get_data_format E ⟨self, log⟩
      = (Except.ok (format, c, sample_rate, channel_map), w)) :
    (DataSource.on_read E T log (some self) (some buf) frameCount (some frames_read)).log
      = w.log ++ [Event.createInterleavedView c frameCount,
          Event.on_read (createInterleavedView buf c frameCount) frames_read] ∧
    (createInterleavedView buf c frameCount).data = buf ∧
    (createInterleavedView buf c frameCount).numChannels = c ∧
    (createInterleavedView buf c frameCount).numFrames = frameCount ∧
    (DataSource.on_read E T log (some self) (some buf) frameCount (some frames_read)).pFramesRead
      = some (T.on_read w.self (createInterleavedView buf c frameCount) frames_read).2.2.1 ∧
    (DataSource.on_read E T log (some self) (some buf) frameCount (some frames_read)).pFramesOut
      = some (T.on_read w.self (createInterleavedView buf c frameCount) frames_read).2.1 ∧
    (DataSource.on_read E T log (some self) (some buf) frameCount (some frames_read)).pDataSource
      = some (T.on_read w.self (createInterleavedView buf c frameCount) frames_read).2.2.2 ∧
    Event.on_read_noargs ∉ [Event.createInterleavedView c frameCount,
          Event.on_read (createInterleavedView buf c frameCount) frames_read] := by
  unfold DataSource.on_read
  rcases hcb : T.on_read w.self (createInterleavedView buf c frameCount) frames_read
    with ⟨r, b, n, s⟩
  simp only [createInterleavedView] at hcb ⊢
  cases r <;> simp [hq, hcb]

set_option maxRecDepth 100000 in
/-- Witness of C9: the scenario of the spec, a read of capacity 3 from the
ten-frame mono source with its cursor at 5, driven through the vtable. -/
theorem buffered_read_dispatch_witness :
    (DataSource.on_read (vtable_get_data_format tenFrames) tenFrames [] (some 5)
        (some [0, 0, 0]) 3 (some 0)).log
      = [Event.on_get_data_format 254, Event.read_channelmap 0, Event.write_pChannelMap 0,
          Event.createInterleavedView 1 3, Event.on_read ⟨[0, 0, 0], 1, 3⟩ 0] ∧
    (DataSource.on_read (vtable_get_data_format tenFrames) tenFrames [] (some 5)
        (some [0, 0, 0]) 3 (some 0)).pFramesRead = some 3 ∧
    (DataSource.on_read (vtable_get_data_format tenFrames) tenFrames [] (some 5)
        (some [0, 0, 0]) 3 (some 0)).pDataSource = some 8 :=
  have h := buffered_read_dispatch (vtable_get_data_format tenFrames) tenFrames [] 5
    [0, 0, 0] 3 0 5 1 48000 (2 :: List.replicate 253 0)
    ⟨5, [Event.on_get_data_format 254, Event.read_channelmap 0, Event.write_pChannelMap 0]⟩ rfl
  ⟨h.1, h.2.2.2.2.1, h.2.2.2.2.2.2.1⟩

/-- The two-way branch shared by the convenience operations translates the
engine status as the spec words it. -/
theorem translates_branch {α ω : Type} (res : ma_result) (v : α) (w : ω) :
    Translates res v (if res = MA_SUCCESS then (Except.ok v, w) else (Except.error res, w)).1 := by
  by_cases h : res = MA_SUCCESS <;> simp [Translates, h]

/-- The operations without a payload and `get_data_format`, with `return res;`
read as the failure carrying `res`: `seek_to_frame`, `seek_to_seconds`,
`get_data_format`, `set_looping`, `set_pcm_range` and `set_loop_point` (both
overloads of the last two) translate the status of the engine primitive as
the spec words it, whatever the primitive does. -/
theorem unit_result_translation {σ : Type} (this : World σ)
    (p_seek_to_pcm_frame : World σ → Nat → ma_result × World σ)
    (p_seek_to_second : World σ → float → ma_result × World σ)
    (p_get_data_format : EngineGetDataFormat σ)
    (p_set_looping : World σ → Nat → ma_result × World σ)
    (p_set_range_in_pcm_frames p_set_loop_point_in_pcm_frames :
      World σ → Nat → Nat → ma_result × World σ)
    (frame start end_ start_frames end_frames : Nat)
    (second seconds : float) (looping : Bool) :
    Translates (p_seek_to_pcm_frame this frame).1 ()
      (DataSource.seek_to_frame p_seek_to_pcm_frame this frame).1 ∧
    Translates (p_seek_to_second this second).1 ()
      (DataSource.seek_to_seconds p_seek_to_second second this seconds).1 ∧
    Translates
      (p_get_data_format this (fun i => (List.replicate MA_MAX_CHANNELS 0).getD i 0)
        MA_MAX_CHANNELS).1
      ((p_get_data_format this (fun i => (List.replicate MA_MAX_CHANNELS 0).getD i 0)
          MA_MAX_CHANNELS).2.1,
        (p_get_data_format this (fun i => (List.replicate MA_MAX_CHANNELS 0).getD i 0)
          MA_MAX_CHANNELS).2.2.1,
        (p_get_data_format this (fun i => (List.replicate MA_MAX_CHANNELS 0).getD i 0)
          MA_MAX_CHANNELS).2.2.2.1,
        (List.range MA_MAX_CHANNELS).map
          (p_get_data_format this (fun i => (List.replicate MA_MAX_CHANNELS 0).getD i 0)
            MA_MAX_CHANNELS).2.2.2.2.1)
      (DataSource.get_data_format p_get_data_format this).1 ∧
    Translates (p_set_looping this (if looping then 1 else 0)).1 ()
      (DataSource.set_looping p_set_looping this looping).1 ∧
    Translates (p_set_range_in_pcm_frames this start end_).1 ()
      (DataSource.set_pcm_range p_set_range_in_pcm_frames this start end_).1 ∧
    Translates (p_set_range_in_pcm_frames this start end_).1 ()
      (DataSource.set_pcm_range_tuple p_set_range_in_pcm_frames this (start, end_)).1 ∧
    Translates (p_set_loop_point_in_pcm_frames this start end_).1 ()
      (DataSource.set_loop_point p_set_loop_point_in_pcm_frames start end_ this
        start_frames end_frames).1 ∧
    Translates (p_set_loop_point_in_pcm_frames this start end_).1 ()
      (DataSource.set_loop_point_tuple p_set_loop_point_in_pcm_frames this (start, end_)).1 := by
  refine ⟨?_, ?_, ?_, ?_, ?_, ?_, ?_, ?_⟩
  · unfold DataSource.seek_to_frame
    rcases p_seek_to_pcm_frame this frame with ⟨res, w⟩
    exact translates_branch res () w
  · unfold DataSource.seek_to_seconds
    rcases p_seek_to_second this second with ⟨res, w⟩
    exact translates_branch res () w
  · unfold DataSource.get_data_format
    simp only [List.length_replicate]
    rcases p_get_data_format this (fun i => (List.replicate MA_MAX_CHANNELS 0).getD i 0)
      MA_MAX_CHANNELS with ⟨res, format, channels, sample_rate, data, w⟩
    exact translates_branch res _ w
  · unfold DataSource.set_looping
    rcases p_set_looping this (if looping then 1 else 0) with ⟨res, w⟩
    exact translates_branch res () w
  · unfold DataSource.set_pcm_range
    rcases p_set_range_in_pcm_frames this start end_ with ⟨res, w⟩
    exact translates_branch res () w
  · unfold DataSource.set_pcm_range_tuple
    dsimp only
    rcases p_set_range_in_pcm_frames this start end_ with ⟨res, w⟩
    exact translates_branch res () w
  · unfold DataSource.set_loop_point
    rcases p_set_loop_point_in_pcm_frames this start end_ with ⟨res, w⟩
    exact translates_branch res () w
  · unfold DataSource.set_loop_point_tuple
    dsimp only
    rcases p_set_loop_point_in_pcm_frames this start end_ with ⟨res, w⟩
    exact translates_branch res () w

/-- The branch of the operations with a `std::uint64_t` or `float` payload:
always a success, holding the out cell when the status is `MA_SUCCESS` and the
converted status otherwise. -/
theorem value_branch {α ω : Type} (res : ma_result) (v c : α) (w : ω) :
    (if res = MA_SUCCESS then ((Except.ok v : Except ma_result α), w)
      else (Except.ok c, w)).1
      = Except.ok (if res = MA_SUCCESS then v else c) := by
  by_cases h : res = MA_SUCCESS <;> simp [h]

/-- C6. Convenience-operation result translation, at the operations with a
`std::uint64_t` or `float` payload: `seek_frames`, `seek_seconds`,
`get_cursor_frames`, `get_length_frames`, `get_cursor_seconds` and
`get_length_seconds` return a success whatever status the engine primitive
returned; when the status is not `MA_SUCCESS` the success holds the status
converted to the payload type, and no failure carrying the status is produced.
With a primitive that returns `MA_INVALID_ARGS`, `get_cursor_frames()` is the
success holding `18446744073709551614`, which is not the translation the spec
words. -/
theorem failure_status_returned_as_success {σ : Type} (this : World σ)
    (to_float : ma_result → float)
    (p_seek_pcm_frames : World σ → Nat → ma_result × Nat × World σ)
    (p_seek_seconds : World σ → float → ma_result × float × World σ)
    (p_get_cursor_in_pcm_frames p_get_length_in_pcm_frames : World σ → ma_result × Nat × World σ)
    (p_get_cursor_in_seconds p_get_length_in_seconds : World σ → ma_result × float × World σ)
    (frame_count count : Nat) (seconds : float) :
    (DataSource.seek_frames p_seek_pcm_frames frame_count this count).1
      = Except.ok (if (p_seek_pcm_frames this frame_count).1 = MA_SUCCESS
          then (p_seek_pcm_frames this frame_count).2.1
          else to_uint64 (p_seek_pcm_frames this frame_count).1) ∧
    (DataSource.seek_seconds to_float p_seek_seconds this seconds).1
      = Except.ok (if (p_seek_seconds this seconds).1 = MA_SUCCESS
          then (p_seek_seconds this seconds).2.1
          else to_float (p_seek_seconds this seconds).1) ∧
    (DataSource.get_cursor_frames p_get_cursor_in_pcm_frames this).1
      = Except.ok (if (p_get_cursor_in_pcm_frames this).1 = MA_SUCCESS
          then (p_get_cursor_in_pcm_frames this).2.1
          else to_uint64 (p_get_cursor_in_pcm_frames this).1) ∧
    (DataSource.get_length_frames p_get_length_in_pcm_frames this).1
      = Except.ok (if (p_get_length_in_pcm_frames this).1 = MA_SUCCESS
          then (p_get_length_in_pcm_frames this).2.1
          else to_uint64 (p_get_length_in_pcm_frames this).1) ∧
    (DataSource.get_cursor_seconds to_float p_get_cursor_in_seconds this).1
      = Except.ok (if (p_get_cursor_in_seconds this).1 = MA_SUCCESS
          then (p_get_cursor_in_seconds this).2.1
          else to_float (p_get_cursor_in_seconds this).1) ∧
    (DataSource.get_length_seconds to_float p_get_length_in_seconds this).1
      = Except.ok (if (p_get_length_in_seconds this).1 = MA_SUCCESS
          then (p_get_length_in_seconds this).2.1
          else to_float (p_get_length_in_seconds this).1) ∧
    (DataSource.get_cursor_frames
        (fun ds : World Unit => (MA_INVALID_ARGS, (0 : Nat), ds)) ⟨(), []⟩).1
      = Except.ok 18446744073709551614 ∧
    ¬ Translates MA_INVALID_ARGS (0 : Nat)
        (DataSource.get_cursor_frames
          (fun ds : World Unit => (MA_INVALID_ARGS, (0 : Nat), ds)) ⟨(), []⟩).1 := by
  refine ⟨?_, ?_, ?_, ?_, ?_, ?_, ?_, ?_⟩
  · unfold DataSource.seek_frames
    rcases p_seek_pcm_frames this frame_count with ⟨res, v, w⟩
    exact value_branch res v _ w
  · unfold DataSource.seek_seconds
    rcases p_seek_seconds this seconds with ⟨res, v, w⟩
    exact value_branch res v _ w
  · unfold DataSource.get_cursor_frames
    rcases p_get_cursor_in_pcm_frames this with ⟨res, v, w⟩
    exact value_branch res v _ w
  · unfold DataSource.get_length_frames
    rcases p_get_length_in_pcm_frames this with ⟨res, v, w⟩
    exact value_branch res v _ w
  · unfold DataSource.get_cursor_seconds
    rcases p_get_cursor_in_seconds this with ⟨res, v, w⟩
    exact value_branch res v _ w
  · unfold DataSource.get_length_seconds
    rcases p_get_length_in_seconds this with ⟨res, v, w⟩
    exact value_branch res v _ w
  · rfl
  · intro h
    have h3 := h.2.2 (by decide)
    have h4 : (DataSource.get_cursor_frames
        (fun ds : World Unit => (MA_INVALID_ARGS, (0 : Nat), ds)) ⟨(), []⟩).1
          = Except.ok 18446744073709551614 := rfl
    rw [h4] at h3
    cases h3

/-- Over the stored range, `set_pcm_range(a, b)` followed by `get_pcm_range()`
yields `(a, b)`. -/
theorem pcm_range_round_trip (this : World ma_data_source_base) (a b : Nat) :
    (DataSource.get_pcm_range ma_data_source_get_range_in_pcm_frames
      (DataSource.set_pcm_range ma_data_source_set_range_in_pcm_frames this a b).2).1
      = (a, b) := by
  simp [DataSource.get_pcm_range, DataSource.set_pcm_range,
    ma_data_source_get_range_in_pcm_frames, ma_data_source_set_range_in_pcm_frames]

/-- The tuple overload of `set_pcm_range` is the two-argument one, whatever
the engine primitive. -/
theorem set_pcm_range_tuple_eq {σ : Type}
    (p_set_range_in_pcm_frames : World σ → Nat → Nat → ma_result × World σ)
    (this : World σ) (a b : Nat) :
    DataSource.set_pcm_range_tuple p_set_range_in_pcm_frames this (a, b)
      = DataSource.set_pcm_range p_set_range_in_pcm_frames this a b := rfl

/-- Over the stored loop region, the tuple overload `set_loop_point((a, b))`
followed by the loop-point getter yields `(a, b)`. -/
theorem loop_point_tuple_round_trip (this : World ma_data_source_base) (a b : Nat) :
    (DataSource.get_pcm_range_loop ma_data_source_get_loop_point_in_pcm_frames
      (DataSource.set_loop_point_tuple ma_data_source_set_loop_point_in_pcm_frames this
        (a, b)).2).1 = (a, b) := by
  simp [DataSource.get_pcm_range_loop, DataSource.set_loop_point_tuple,
    ma_data_source_get_loop_point_in_pcm_frames, ma_data_source_set_loop_point_in_pcm_frames]

/-- C7. Range and loop-point round trip, at the two-argument `set_loop_point`:
the engine receives the values of `start` and `end`, which are not the
arguments `start_frames` and `end_frames`, so the loop-point getter that
follows yields `(start, end)` whatever the arguments were; with `start = 0`
and `end = 0`, `set_loop_point(1, 2)` is followed by `(0, 0)`, while the tuple
overload called with `(1, 2)` is followed by `(1, 2)`. -/
theorem set_loop_point_drops_arguments :
    (∀ (start end_ : Nat) (this : World ma_data_source_base) (start_frames end_frames : Nat),
      (DataSource.get_pcm_range_loop ma_data_source_get_loop_point_in_pcm_frames
        (DataSource.set_loop_point ma_data_source_set_loop_point_in_pcm_frames start end_ this
          start_frames end_frames).2).1 = (start, end_)) ∧
    (DataSource.get_pcm_range_loop ma_data_source_get_loop_point_in_pcm_frames
      (DataSource.set_loop_point ma_data_source_set_loop_point_in_pcm_frames 0 0
        ⟨⟨0, 0, 0, 0⟩, []⟩ 1 2).2).1 = (0, 0) ∧
    (DataSource.get_pcm_range_loop ma_data_source_get_loop_point_in_pcm_frames
      (DataSource.set_loop_point_tuple ma_data_source_set_loop_point_in_pcm_frames
        ⟨⟨0, 0, 0, 0⟩, []⟩ (1, 2)).2).1 = (1, 2) := by
  refine ⟨?_, rfl, rfl⟩
  intro start end_ this start_frames end_frames
  simp [DataSource.get_pcm_range_loop, DataSource.set_loop_point,
    ma_data_source_get_loop_point_in_pcm_frames, ma_data_source_set_loop_point_in_pcm_frames]

/-- C8. Node construction bus counts: when the compile-time input (output) bus
count is `MA_NODE_BUS_COUNT_UNKNOWN`, construction without an actual input
(output) count aborts before `ma_node_init` is reached, and construction with
an actual count `n` hands `ma_node_init` a configuration whose bus count for
that side is exactly `n`; when the compile-time count is fixed, the bus count
of the configuration for that side is the default of `ma_node_config_init()`,
whatever actual count was supplied.  Construction reaches `ma_node_init`
whenever every required actual count is supplied. -/
theorem node_bus_counts (input_buses output_buses flags : Nat) (config_init : ma_node_config)
    (actual_input_bus_count actual_output_bus_count : Option Nat) :
    (input_buses = MA_NODE_BUS_COUNT_UNKNOWN →
      AudioNode.AudioNode input_buses output_buses flags config_init none
        actual_output_bus_count = none) ∧
    (output_buses = MA_NODE_BUS_COUNT_UNKNOWN →
      AudioNode.AudioNode input_buses output_buses flags config_init actual_input_bus_count
        none = none) ∧
    (∀ config, AudioNode.AudioNode input_buses output_buses flags config_init
        actual_input_bus_count actual_output_bus_count = some config →
      (input_buses = MA_NODE_BUS_COUNT_UNKNOWN →
        actual_input_bus_count = some config.inputBusCount) ∧
      (input_buses ≠ MA_NODE_BUS_COUNT_UNKNOWN →
        config.inputBusCount = config_init.inputBusCount) ∧
      (output_buses = MA_NODE_BUS_COUNT_UNKNOWN →
        actual_output_bus_count = some config.outputBusCount) ∧
      (output_buses ≠ MA_NODE_BUS_COUNT_UNKNOWN →
        config.outputBusCount = config_init.outputBusCount) ∧
      config.vtable = some (AudioNode.nvtable input_buses output_buses flags)) ∧
    ((input_buses = MA_NODE_BUS_COUNT_UNKNOWN → actual_input_bus_count.isSome = true) →
      (output_buses = MA_NODE_BUS_COUNT_UNKNOWN → actual_output_bus_count.isSome = true) →
      (AudioNode.AudioNode input_buses output_buses flags config_init
        actual_input_bus_count actual_output_bus_count).isSome = true) := by
  unfold AudioNode.AudioNode
  by_cases hi : input_buses = MA_NODE_BUS_COUNT_UNKNOWN <;>
    by_cases ho : output_buses = MA_NODE_BUS_COUNT_UNKNOWN <;>
    cases actual_input_bus_count <;> cases actual_output_bus_count <;>
    simp [hi, ho]

/-- Witness of C8: an instantiation with an unknown input bus count and two
output buses; without an actual input count construction aborts, with the
actual input count 3 it reaches `ma_node_init` with 3 input buses and the
default output bus count, the supplied output count 9 being ignored. -/
theorem node_bus_counts_witness :
    AudioNode.AudioNode 255 2 0 ⟨none, 255, 255⟩ none (some 9) = none ∧
    (AudioNode.AudioNode 255 2 0 ⟨none, 255, 255⟩ (some 3) (some 9)).isSome = true ∧
    AudioNode.AudioNode 255 2 0 ⟨none, 255, 255⟩ (some 3) (some 9)
      = some ⟨some ⟨255, 2, 0⟩, 3, 255⟩ :=
  ⟨(node_bus_counts 255 2 0 ⟨none, 255, 255⟩ none (some 9)).1 rfl,
   (node_bus_counts 255 2 0 ⟨none, 255, 255⟩ (some 3) (some 9)).2.2.2
      (fun _ => rfl) (fun _ => rfl),
   rfl⟩
